import Mathlib

/-
Verification development for the projector-installer run-configuration
subsystem (run_config.py, config_generator.py, secure_config.py, utils.py,
actions.py).  Python functions are shallowly embedded as executable Lean
definitions; filesystem and OS effects are made explicit as state passing.
-/

namespace ProjectorInstaller

/-- Models `os.path.join(a, b)` for the uses in this code base (the second
component is always a relative name). -/
def pyJoin (a b : String) : String :=
  if a = "" then b
  else if a.toList.getLast? = some '/' then a ++ b
  else a ++ "/" ++ b

/-- Boolean prefix test on character lists (used to model Python `str.find`
and `str.startswith` machinery). -/
def isPre : List Char → List Char → Bool
  | [], _ => true
  | _ :: _, [] => false
  | a :: ps, b :: ss => a == b && isPre ps ss

/-- Boolean substring test: `containsSub sub s` is true iff `sub` occurs as a
contiguous substring of `s`.  This models Python `s.find(sub) != -1`
(in particular the empty pattern is found in every string). -/
def containsSub (sub : List Char) : List Char → Bool
  | [] => sub.isEmpty
  | b :: t => isPre sub (b :: t) || containsSub sub t

/-- Models `s.find(pat) != -1` on Python strings. -/
def strContains (s pat : String) : Bool :=
  containsSub pat.toList s.toList

/-- Models Python `str.lower` on the character list of a string. -/
def pyLower (s : String) : List Char :=
  s.toList.map Char.toLower

/-- Models `name.lower().find(pattern.lower()) != -1` from
`run_config.get_run_configs`. -/
def lowerContains (name pat : String) : Bool :=
  containsSub (pyLower pat) (pyLower name)

theorem isPre_self (l : List Char) : isPre l l = true := by
  induction l with
  | nil => rfl
  | cons a t ih => simp [isPre, ih]

theorem containsSub_self (l : List Char) : containsSub l l = true := by
  cases l with
  | nil => rfl
  | cons b t => simp [containsSub, isPre_self]

theorem containsSub_nil (l : List Char) : containsSub [] l = true := by
  cases l with
  | nil => rfl
  | cons b t => simp [containsSub, isPre]

/-! ## The RunConfig record (run_config.py, `class RunConfig`)

The dataclass in `run_config.py` together with the `use_separate_config`
attribute that `config_generator.save_config`, `actions.py` and `dialogs.py`
read and write on it.  `update_channel` values and `projector_host`
defaults are the class-level constants. -/

/-- Source `RunConfig.TESTED` -/
def TESTED : String := "tested"
/-- Source `RunConfig.NOT_TESTED` -/
def NOT_TESTED : String := "not_tested"
/-- Source `RunConfig.UNKNOWN` -/
def UNKNOWN : String := "unknown"
/-- Source `RunConfig.HOST_ALL` -/
def HOST_ALL : String := "*"

/-- The run configuration record (`run_config.RunConfig`). -/
structure RunConfig where
  name : String
  path_to_app : String
  projector_port : Nat
  token : String
  password : String
  ro_password : String
  toolbox : Bool
  custom_names : String
  certificate : String := ""
  certificate_key : String := ""
  certificate_chain : String := ""
  update_channel : String := UNKNOWN
  projector_host : String := HOST_ALL
  use_separate_config : Bool := false
  deriving Repr, DecidableEq

/-- Source `RunConfig.is_secure` -/
def RunConfig.is_secure (c : RunConfig) : Bool := c.token != ""

/-- Source `RunConfig.is_password_protected` -/
def RunConfig.is_password_protected (c : RunConfig) : Bool := c.password != ""

/-! ## INI persistence (config_generator.save_config / run_config.load_config)

`config.ini` is modelled as a record of optional values: a field is `some v`
exactly when the corresponding `SECTION/KEY` pair is present in the file.
`ConfigParser.get/getint/getboolean` with a `fallback` are modelled by
`Option.getD`; the two reads without a fallback (`IDE/PATH`,
`PROJECTOR/PORT`) fail when the key is absent, so `load_config` is
`Option`-valued. -/

/-- The persisted `config.ini` contents, one optional field per
section/key pair that `save_config` can write and `load_config` can read. -/
structure ConfigIni where
  ide_path : Option String := none
  ide_use_separate_config : Option Bool := none
  projector_port : Option Nat := none
  projector_host : Option String := none
  ssl_token : Option String := none
  ssl_certificate_file : Option String := none
  ssl_key_file : Option String := none
  ssl_chain_file : Option String := none
  passwords_password : Option String := none
  passwords_ro_password : Option String := none
  toolbox_toolbox : Option Bool := none
  fqdns_fqdns : Option String := none
  update_channel : Option String := none
  deriving Repr, DecidableEq

/-- The `config.ini` contents written by `config_generator.save_config`
(lines 143-187): `IDE`, `PROJECTOR` and `UPDATE` entries are always written;
the `SSL` section only for a secure config (and the certificate entries only
when `run_config.certificate` is non-empty); `PASSWORDS` only when password
protected; `TOOLBOX` and `FQDNS` only when truthy. -/
def save_config_ini (c : RunConfig) : ConfigIni where
  ide_path := some c.path_to_app
  ide_use_separate_config := some c.use_separate_config
  projector_port := some c.projector_port
  projector_host := some c.projector_host
  ssl_token := if c.is_secure then some c.token else none
  ssl_certificate_file :=
    if c.is_secure && c.certificate != "" then some c.certificate else none
  ssl_key_file :=
    if c.is_secure && c.certificate != "" then some c.certificate_key else none
  ssl_chain_file :=
    if c.is_secure && c.certificate != "" then some c.certificate_chain else none
  passwords_password := if c.is_password_protected then some c.password else none
  passwords_ro_password := if c.is_password_protected then some c.ro_password else none
  toolbox_toolbox := if c.toolbox then some true else none
  fqdns_fqdns := if c.custom_names != "" then some c.custom_names else none
  update_channel := some c.update_channel

/-- Source `run_config.load_config` (lines 111-129): reads the record back, applying
the `fallback=` defaults for optional keys.  `IDE/PATH` and `PROJECTOR/PORT`
have no fallback, so a file missing them fails to load.  `load_config` never
reads `USE_SEPARATE_CONFIG`, so that attribute keeps the record default. -/
def load_config (config_name : String) (ini : ConfigIni) : Option RunConfig := do
  let path ← ini.ide_path
  let port ← ini.projector_port
  pure
    { name := config_name
      path_to_app := path
      projector_port := port
      token := ini.ssl_token.getD ""
      password := ini.passwords_password.getD ""
      ro_password := ini.passwords_ro_password.getD ""
      toolbox := ini.toolbox_toolbox.getD false
      custom_names := ini.fqdns_fqdns.getD ""
      certificate := ini.ssl_certificate_file.getD ""
      certificate_key := ini.ssl_key_file.getD ""
      certificate_chain := ini.ssl_chain_file.getD ""
      update_channel := ini.update_channel.getD UNKNOWN
      projector_host := ini.projector_host.getD HOST_ALL }

/-- Agreement on the twelve persisted fields named by the round-trip law. -/
def agreesOnPersisted (r c : RunConfig) : Prop :=
  r.path_to_app = c.path_to_app ∧
  r.projector_port = c.projector_port ∧
  r.projector_host = c.projector_host ∧
  r.token = c.token ∧
  r.password = c.password ∧
  r.ro_password = c.ro_password ∧
  r.toolbox = c.toolbox ∧
  r.custom_names = c.custom_names ∧
  r.certificate = c.certificate ∧
  r.certificate_key = c.certificate_key ∧
  r.certificate_chain = c.certificate_chain ∧
  r.update_channel = c.update_channel

instance (r c : RunConfig) : Decidable (agreesOnPersisted r c) := by
  unfold agreesOnPersisted; infer_instance

/-- C1 counterexample: a valid config whose `ro_password` is set while
`password` is empty is saved without a `PASSWORDS` section (`save_config`
guards it with `is_password_protected`), so `load_config` restores
`ro_password` as the empty fallback, not the original value. -/
theorem C1_roundtrip_counterexample :
    (load_config "cfg"
        (save_config_ini
          { name := "cfg", path_to_app := "/app", projector_port := 9999,
            token := "", password := "", ro_password := "x", toolbox := false,
            custom_names := "" })).map RunConfig.ro_password = some "" ∧
    ("x" : String) ≠ "" := by
  constructor
  · rfl
  · decide

/-- C1 (amended): the save/load round trip restores each of the twelve
persisted fields, provided each field's section/key is actually written by
`save_config` whenever the field is non-default — i.e. `ro_password` is only
set alongside `password`, and the certificate file names are only set on a
secure config with a non-empty `certificate`. -/
theorem C1_roundtrip_amended (c : RunConfig)
    (hro : c.ro_password ≠ "" → c.password ≠ "")
    (hcert : c.certificate ≠ "" → c.token ≠ "")
    (hkey : c.certificate_key ≠ "" → c.token ≠ "" ∧ c.certificate ≠ "")
    (hchain : c.certificate_chain ≠ "" → c.token ≠ "" ∧ c.certificate ≠ "") :
    ∃ r, load_config c.name (save_config_ini c) = some r ∧ agreesOnPersisted r c := by
  refine ⟨_, rfl, ?_⟩
  refine ⟨rfl, rfl, rfl, ?_, ?_, ?_, ?_, ?_, ?_, ?_, ?_, rfl⟩
  · show (if c.is_secure then some c.token else none).getD "" = c.token
    by_cases h : c.token = "" <;> simp [RunConfig.is_secure, h]
  · show (if c.is_password_protected then some c.password else none).getD "" = c.password
    by_cases h : c.password = "" <;> simp [RunConfig.is_password_protected, h]
  · show (if c.is_password_protected then some c.ro_password else none).getD "" = c.ro_password
    by_cases h : c.password = ""
    · have : c.ro_password = "" := by
        by_contra hne; exact (hro hne) h
      simp [RunConfig.is_password_protected, h, this]
    · simp [RunConfig.is_password_protected, h]
  · show (if c.toolbox then some true else none).getD false = c.toolbox
    cases h : c.toolbox <;> simp [h]
  · show (if c.custom_names != "" then some c.custom_names else none).getD "" = c.custom_names
    by_cases h : c.custom_names = "" <;> simp [h]
  · show (if c.is_secure && c.certificate != "" then some c.certificate else none).getD ""
        = c.certificate
    by_cases h : c.certificate = ""
    · simp [h]
    · simp [RunConfig.is_secure, hcert h, h]
  · show (if c.is_secure && c.certificate != "" then some c.certificate_key else none).getD ""
        = c.certificate_key
    by_cases h : c.certificate_key = ""
    · by_cases hs : c.is_secure && c.certificate != "" <;> simp [hs, h]
    · simp [RunConfig.is_secure, (hkey h).1, (hkey h).2]
  · show (if c.is_secure && c.certificate != "" then some c.certificate_chain else none).getD ""
        = c.certificate_chain
    by_cases h : c.certificate_chain = ""
    · by_cases hs : c.is_secure && c.certificate != "" <;> simp [hs, h]
    · simp [RunConfig.is_secure, (hchain h).1, (hchain h).2]

/-- C1 witness: the amended round trip at a concrete fully-populated config. -/
theorem C1_roundtrip_amended_witness :
    ∃ r,
      load_config "n"
          (save_config_ini
            { name := "n", path_to_app := "/a", projector_port := 8887,
              token := "t", password := "p", ro_password := "r", toolbox := true,
              custom_names := "h", certificate := "own.crt", certificate_key := "own.key",
              certificate_chain := "own.chain", update_channel := "tested",
              projector_host := "*" }) = some r ∧
      agreesOnPersisted r
        { name := "n", path_to_app := "/a", projector_port := 8887,
          token := "t", password := "p", ro_password := "r", toolbox := true,
          custom_names := "h", certificate := "own.crt", certificate_key := "own.key",
          certificate_chain := "own.chain", update_channel := "tested",
          projector_host := "*" } :=
  C1_roundtrip_amended _ (by decide) (by decide) (by decide) (by decide)

/-! ## Listing run configs (run_config.get_run_configs, lines 137-152)

The directory enumeration (`listdir(get_run_configs_dir())`) is a list of
names; the parsed configs are supplied by a `load` function (one `RunConfig`
per name, as `load_config` produces).  The Python loop accumulates a dict
`res`, skips names failing the case-insensitive substring filter, and
returns a fresh single-entry dict (discarding `res`) as soon as a name
equals the pattern. -/

/-- Python truthiness of the `pattern` argument (`if pattern and ...`):
`None` and the empty string are falsy. -/
def patTruthy : Option String → Bool
  | none => false
  | some s => s != ""

/-- The skip condition
`pattern and config_name.lower().find(pattern.lower()) == -1`. -/
def skipName (pattern : Option String) (n : String) : Bool :=
  patTruthy pattern && !(lowerContains n (pattern.getD ""))

/-- The loop body of `get_run_configs` with its accumulator `res`; the exact
match returns a fresh singleton, discarding the accumulator. -/
def get_run_configs_loop (load : String → RunConfig) (pattern : Option String)
    (acc : List (String × RunConfig)) : List String → List (String × RunConfig)
  | [] => acc
  | n :: rest =>
    if skipName pattern n then get_run_configs_loop load pattern acc rest
    else if pattern = some n then [(n, load n)]
    else get_run_configs_loop load pattern (acc ++ [(n, load n)]) rest

/-- Source `run_config.get_run_configs`: `load` parses one config per directory name,
`names` is the `listdir` enumeration. -/
def get_run_configs (load : String → RunConfig) (pattern : Option String)
    (names : List String) : List (String × RunConfig) :=
  get_run_configs_loop load pattern [] names

/-- Names never skip themselves: a pattern equal to the name always passes the
case-insensitive substring filter. -/
theorem skipName_self (p : String) : skipName (some p) p = false := by
  simp [skipName, patTruthy, lowerContains, containsSub_self]

/-- If the pattern occurs in the enumeration, the loop returns exactly the
singleton for it, whatever was accumulated before. -/
theorem get_run_configs_loop_exact (load : String → RunConfig) (p : String)
    (names : List String) (hp : p ∈ names) :
    ∀ acc, get_run_configs_loop load (some p) acc names = [(p, load p)] := by
  induction names with
  | nil => cases hp
  | cons n rest ih =>
    intro acc
    by_cases hn : n = p
    · subst hn
      simp [get_run_configs_loop, skipName_self]
    · have hp' : p ∈ rest := by
        cases List.mem_cons.mp hp with
        | inl h => exact absurd h.symm hn
        | inr h => exact h
      by_cases hs : skipName (some p) n
      · simp [get_run_configs_loop, hs, ih hp']
      · have hne : ¬ (some p = some n) := by
          intro h; exact hn (Option.some.inj h).symm
        simp [get_run_configs_loop, hs, hne, ih hp']

/-- If the pattern matches no name exactly, the loop appends, in order, one
entry per surviving name. -/
theorem get_run_configs_loop_filter (load : String → RunConfig)
    (pattern : Option String) (names : List String)
    (hp : ∀ n ∈ names, pattern ≠ some n) :
    ∀ acc, get_run_configs_loop load pattern acc names =
      acc ++ (names.filter (fun n => !(skipName pattern n))).map (fun n => (n, load n)) := by
  induction names with
  | nil => intro acc; simp [get_run_configs_loop]
  | cons n rest ih =>
    intro acc
    have hpn : pattern ≠ some n := hp n (List.mem_cons_self n rest)
    have hprest : ∀ m ∈ rest, pattern ≠ some m := fun m hm => hp m (List.mem_cons_of_mem n hm)
    by_cases hs : skipName pattern n
    · simp [get_run_configs_loop, hs, ih hprest]
    · simp only [get_run_configs_loop, hs, if_false, if_neg hpn, ih hprest,
        Bool.not_eq_true]
      simp [hs]

/-- Characterization of membership in the produced mapping. -/
theorem mem_get_run_configs (load : String → RunConfig) (pattern : Option String)
    (names : List String) (hp : ∀ n ∈ names, pattern ≠ some n) (n : String) :
    n ∈ (get_run_configs load pattern names).map Prod.fst ↔
      n ∈ names ∧ skipName pattern n = false := by
  unfold get_run_configs
  rw [get_run_configs_loop_filter load pattern names hp []]
  simp [List.mem_filter]

/-- A pattern survives the skip test exactly when the name contains it as a
case-insensitive substring (an empty pattern is falsy, so nothing is skipped,
matching the fact that every string contains the empty substring). -/
theorem skipName_eq_false_iff (p n : String) :
    skipName (some p) n = false ↔ lowerContains n p = true := by
  by_cases hp : p = ""
  · subst hp
    simp [skipName, patTruthy, lowerContains, pyLower, containsSub_nil]
  · simp [skipName, patTruthy, hp]

/-- A sample parsed config, used as the parse result in concrete witnesses. -/
def sampleConfig : RunConfig :=
  { name := "Idea", path_to_app := "/opt/idea", projector_port := 9999,
    token := "", password := "", ro_password := "", toolbox := false,
    custom_names := "" }

/-- C3: listing with a pattern.  If the pattern equals an enumerated config
name (case-sensitively), the result is exactly that single entry, regardless
of the other names; otherwise a name is included exactly when it contains the
pattern as a case-insensitive substring. -/
theorem C3_get_run_configs_pattern (load : String → RunConfig)
    (names : List String) (p : String) :
    (p ∈ names → get_run_configs load (some p) names = [(p, load p)]) ∧
    (p ∉ names →
      ∀ n, n ∈ (get_run_configs load (some p) names).map Prod.fst ↔
        (n ∈ names ∧ lowerContains n p = true)) := by
  constructor
  · intro hp
    exact get_run_configs_loop_exact load p names hp []
  · intro hp n
    have hne : ∀ m ∈ names, (some p : Option String) ≠ some m := by
      intro m hm h
      exact hp (by rwa [Option.some.inj h])
    rw [mem_get_run_configs load (some p) names hne n]
    constructor
    · rintro ⟨h1, h2⟩
      exact ⟨h1, (skipName_eq_false_iff p n).mp h2⟩
    · rintro ⟨h1, h2⟩
      exact ⟨h1, (skipName_eq_false_iff p n).mpr h2⟩

/-- C3 witness: with directories `Idea` and `IdeaPro`, the exact pattern
`Idea` short-circuits to the single exact entry even though `IdeaPro` also
matches the substring filter. -/
theorem C3_get_run_configs_pattern_witness :
    get_run_configs (fun _ => sampleConfig) (some "Idea") ["IdeaPro", "Idea"] =
      [("Idea", (fun _ => sampleConfig) "Idea")] :=
  (C3_get_run_configs_pattern (fun _ => sampleConfig) ["IdeaPro", "Idea"] "Idea").1
    (by decide)

/-- Looking up a name in the entry list built from a name list. -/
theorem lookup_map_load (load : String → RunConfig) (n : String) (l : List String) :
    List.lookup n (l.map (fun m => (m, load m))) =
      if n ∈ l then some (load n) else none := by
  induction l with
  | nil => simp [List.lookup]
  | cons m t ih =>
    by_cases h : n = m
    · subst h
      simp [List.lookup]
    · have hb : (n == m) = false := by simp [h]
      simp [List.lookup, hb, ih, h]

/-- C10: the mapping produced by `get_run_configs` does not depend on the
order in which configuration directories are enumerated: permuting the
`listdir` result leaves every lookup unchanged, in the exact-match
short-circuit case as well as in the substring-filter case. -/
theorem C10_get_run_configs_order_independent (load : String → RunConfig)
    (pattern : Option String) (l1 l2 : List String) (hperm : l1.Perm l2) (n : String) :
    List.lookup n (get_run_configs load pattern l1) =
      List.lookup n (get_run_configs load pattern l2) := by
  by_cases hex : ∃ p, pattern = some p ∧ p ∈ l1
  · obtain ⟨p, rfl, hp⟩ := hex
    rw [get_run_configs, get_run_configs,
      get_run_configs_loop_exact load p l1 hp [],
      get_run_configs_loop_exact load p l2 (hperm.mem_iff.mp hp) []]
  · have h1 : ∀ m ∈ l1, pattern ≠ some m := by
      intro m hm h
      exact hex ⟨m, h, hm⟩
    have h2 : ∀ m ∈ l2, pattern ≠ some m := by
      intro m hm h
      exact hex ⟨m, h, hperm.mem_iff.mpr hm⟩
    rw [get_run_configs, get_run_configs,
      get_run_configs_loop_filter load pattern l1 h1 [],
      get_run_configs_loop_filter load pattern l2 h2 []]
    simp only [List.nil_append]
    rw [lookup_map_load, lookup_map_load]
    by_cases hn : n ∈ l1.filter (fun m => !(skipName pattern m))
    · rw [if_pos hn, if_pos ((hperm.filter _).mem_iff.mp hn)]
    · rw [if_neg hn, if_neg (fun hc => hn ((hperm.filter _).mem_iff.mpr hc))]

/-- C10 witness: enumeration order of `Idea` first or last gives the same
lookup result for the exact pattern. -/
theorem C10_get_run_configs_order_independent_witness :
    List.lookup "Idea"
        (get_run_configs (fun _ => sampleConfig) (some "Idea") ["IdeaPro", "Idea"]) =
      List.lookup "Idea"
        (get_run_configs (fun _ => sampleConfig) (some "Idea") ["Idea", "IdeaPro"]) :=
  C10_get_run_configs_order_independent (fun _ => sampleConfig) (some "Idea")
    ["IdeaPro", "Idea"] ["Idea", "IdeaPro"] (by decide) "Idea"

/-! ## Filesystem path resolver (global_config.py / run_config.py /
secure_config.py)

`USER_HOME = expanduser('~')` is environment supplied, so the resolver
functions take it as the `home` parameter. -/

/-- Source `global_config.config_dir = join(USER_HOME, DEF_CONFIG_DIR)`. -/
def config_dir (home : String) : String := pyJoin home ".projector"

/-- Source `global_config.get_run_configs_dir`. -/
def get_run_configs_dir (home : String) : String := pyJoin (config_dir home) "configs"

/-- Source `run_config.get_path_to_config`. -/
def get_path_to_config (home config_name : String) : String :=
  pyJoin (get_run_configs_dir home) config_name

/-- Source `run_config.get_run_script_path` (`RUN_SCRIPT_NAME = 'run.sh'`). -/
def get_run_script_path (home config_name : String) : String :=
  pyJoin (get_path_to_config home config_name) "run.sh"

/-- Source `run_config.get_lock_file_name` (`LOCK_FILE_NAME = 'run.lock'`). -/
def get_lock_file_name (home config_name : String) : String :=
  pyJoin (get_path_to_config home config_name) "run.lock"

/-- Source `global_config.get_lib_dir`. -/
def get_lib_dir (home : String) : String := pyJoin (config_dir home) "lib"

/-- Source `global_config.get_projector_server_dir`. -/
def get_projector_server_dir (home : String) : String :=
  pyJoin (get_lib_dir home) "server"

/-- Source `secure_config.get_ssl_properties_file`
(`join(get_run_configs_dir(), config_name, SSL_PROPERTIES_FILE)`). -/
def get_ssl_properties_file (home config_name : String) : String :=
  pyJoin (pyJoin (get_run_configs_dir home) config_name) "ssl.properties"

/-! ## Lock manager (run_config.lock_config / release_config, lines 225-240)

The OS state of the advisory `fcntl.lockf` locks is a predicate on lock-file
paths: `true` means some process currently holds the exclusive lock on that
file.  `lock_config` opens (creating) the lock file and attempts
`lockf(file, LOCK_EX + LOCK_NB)`: with `LOCK_NB` the attempt never blocks,
and when another process holds the lock it raises `OSError`, which the code
catches, closing the file and returning `None`.  The live handle is modelled
by the lock-file path it keeps locked. -/

/-- The OS-wide state of the advisory locks: for each lock-file path, the id
of the process currently holding the exclusive record lock, if any.  POSIX
`fcntl` record locks are owned by a process: a new `lockf` request from the
owning process on the same file succeeds (the records merge), while a
request from any other process conflicts. -/
def LockState : Type := String → Option Nat

/-- Source `run_config.lock_config`, called by process `pid`: opens
(creating) the lock file and attempts `lockf(file, LOCK_EX + LOCK_NB)`.
With `LOCK_NB` the attempt never blocks; when a *different* process holds
the record lock, `lockf` raises `OSError`, which the code catches, closing
the file and returning `None`.  When the lock is free — or already held by
this same process, which POSIX grants — a live handle (the locked
lock-file path) is returned. -/
def lock_config (pid : Nat) (home : String) (st : LockState) (config_name : String) :
    Option String × LockState :=
  let lockFile := get_lock_file_name home config_name
  match st lockFile with
  | some owner =>
    if owner = pid then (some lockFile, st)
    else (none, st)
  | none => (some lockFile, fun p => if p = lockFile then some pid else st p)

/-- Source `run_config.release_config`: closing the handle drops the
process's record lock on that file. -/
def release_config (st : LockState) (lock : String) : LockState :=
  fun p => if p = lock then none else st p

/-- C5 counterexample: in one and the same process, a second
`lock_config` on a configuration whose lock that process already holds
returns a *second live handle*, not the `None` sentinel — `fcntl` record
locks do not conflict within the owning process, falsifying the claim's
"whether from the same or a different process" half. -/
theorem C5_lock_same_process_counterexample :
    (lock_config 1 "/h" (fun _ => none) "cfg").1.isSome = true ∧
    (lock_config 1 "/h" (lock_config 1 "/h" (fun _ => none) "cfg").2 "cfg").1.isSome =
      true := by
  constructor
  · rfl
  · decide

/-- C5 (amended): mutual exclusion across processes.  Once `lock_config`
has handed a live handle to process `pid1` and no release intervened, a
`lock_config` on the same configuration from any *different* process
returns the `None` sentinel — returning, not blocking or raising — while a
repeated `lock_config` from the owning process itself is granted another
live handle. -/
theorem C5_lock_cross_process_exclusion (pid1 pid2 : Nat) (home : String)
    (st : LockState) (n : String)
    (hlive : (lock_config pid1 home st n).1.isSome = true)
    (hne : pid2 ≠ pid1) :
    (lock_config pid2 home (lock_config pid1 home st n).2 n).1 = none ∧
    (lock_config pid1 home (lock_config pid1 home st n).2 n).1.isSome = true := by
  cases hown : st (get_lock_file_name home n) with
  | none =>
    have hne' : pid1 ≠ pid2 := fun h => hne h.symm
    simp [lock_config, hown, hne']
  | some owner =>
    by_cases howner : owner = pid1
    · subst howner
      have hne' : owner ≠ pid2 := fun h => hne h.symm
      simp [lock_config, hown, hne']
    · simp [lock_config, hown, howner] at hlive

/-- C5 witness: process 1 locks a free config; process 2 is refused while
process 1 is granted a repeat handle. -/
theorem C5_lock_cross_process_exclusion_witness :
    (lock_config 2 "/h" (lock_config 1 "/h" (fun _ => none) "cfg").2 "cfg").1 = none ∧
    (lock_config 1 "/h" (lock_config 1 "/h" (fun _ => none) "cfg").2 "cfg").1.isSome =
      true :=
  C5_lock_cross_process_exclusion 1 2 "/h" (fun _ => none) "cfg" (by rfl) (by decide)

/-! ## Deleting a config (run_config.delete_config, lines 162-164) -/

/-- Errors `shutil.rmtree` can raise. -/
inductive OsError where
  | notFound
  | permissionDenied
  deriving Repr, DecidableEq

/-- A directory-tree store for `rmtree`: the existing config directories and
the paths whose removal fails at the OS level (e.g. permission denied). -/
structure Fs where
  dirs : List String
  faulty : List String
  deriving Repr, DecidableEq

/-- Models `shutil.rmtree(path, ignore_errors=...)`: a missing path raises
`FileNotFoundError` and an OS-level failure raises the underlying error,
except that `ignore_errors=True` suppresses both (leaving the tree as the
failed removal left it). -/
def rmtree (fs : Fs) (path : String) (ignore_errors : Bool) : Except OsError Fs :=
  if path ∈ fs.faulty then
    if ignore_errors then .ok fs else .error .permissionDenied
  else if path ∈ fs.dirs then .ok { fs with dirs := fs.dirs.erase path }
  else if ignore_errors then .ok fs else .error .notFound

/-- Source `run_config.delete_config`:
`rmtree(get_path_to_config(config_name), ignore_errors=True)`. -/
def delete_config (home : String) (fs : Fs) (config_name : String) : Except OsError Fs :=
  rmtree fs (get_path_to_config home config_name) true

/-- C7 counterexample: when the OS fails to remove the config directory
(permission denied), `delete_config` returns normally — `ignore_errors=True`
suppresses the error instead of raising it as the claim states. -/
theorem C7_delete_counterexample :
    delete_config "/h"
        { dirs := ["/h/.projector/configs/a"], faulty := ["/h/.projector/configs/a"] }
        "a" =
      Except.ok
        { dirs := ["/h/.projector/configs/a"], faulty := ["/h/.projector/configs/a"] } := by
  rfl

/-- C7 (amended): `delete_config` removes the configuration's directory tree
and never raises: deleting a nonexistent name is a silent no-op, and
underlying OS failures during deletion are likewise suppressed (the
`rmtree` call passes `ignore_errors=True`). -/
theorem C7_delete_config_amended (home : String) (fs : Fs) (config_name : String) :
    (∃ fs', delete_config home fs config_name = Except.ok fs') ∧
    (get_path_to_config home config_name ∉ fs.faulty →
      get_path_to_config home config_name ∉ fs.dirs →
      delete_config home fs config_name = Except.ok fs) ∧
    (get_path_to_config home config_name ∉ fs.faulty →
      get_path_to_config home config_name ∈ fs.dirs →
      delete_config home fs config_name =
        Except.ok { fs with dirs := fs.dirs.erase (get_path_to_config home config_name) }) ∧
    (get_path_to_config home config_name ∈ fs.faulty →
      delete_config home fs config_name = Except.ok fs) := by
  refine ⟨?_, ?_, ?_, ?_⟩
  · by_cases hf : get_path_to_config home config_name ∈ fs.faulty
    · exact ⟨fs, by simp [delete_config, rmtree, hf]⟩
    · by_cases hd : get_path_to_config home config_name ∈ fs.dirs
      · exact ⟨{ fs with dirs := fs.dirs.erase (get_path_to_config home config_name) },
          by simp [delete_config, rmtree, hf, hd]⟩
      · exact ⟨fs, by simp [delete_config, rmtree, hf, hd]⟩
  · intro hf hd
    simp [delete_config, rmtree, hf, hd]
  · intro hf hd
    simp [delete_config, rmtree, hf, hd]
  · intro hf
    simp [delete_config, rmtree, hf]

/-- C7 witness: deleting a nonexistent config is a silent no-op. -/
theorem C7_delete_config_amended_witness :
    delete_config "/h" { dirs := [], faulty := [] } "gone" =
      Except.ok { dirs := [], faulty := [] } :=
  (C7_delete_config_amended "/h" { dirs := [], faulty := [] } "gone").2.1
    (by decide) (by decide)

/-! ## SAN derivation (secure_config.is_ip_address / get_san_alt_names,
lines 197-224)

`get_local_addresses()` enumerates the machine's interfaces (netifaces), so
it is a parameter here.  In this source `get_san_alt_names` takes the bind
address only. -/

/-- True when `a` is between `lo` and `hi` inclusive (a regex character
class such as `[2-4]`). -/
def charBetween (lo hi a : Char) : Bool :=
  lo.toNat ≤ a.toNat && a.toNat ≤ hi.toNat

/-- One dot-free component matching the octet alternation of the regex in
`is_ip_address`: `[0-9] | [1-9][0-9] | 1[0-9]{2} | 2[0-4][0-9] | 25[0-5]`. -/
def isOctet (s : List Char) : Bool :=
  match s with
  | [a] => charBetween '0' '9' a
  | [a, b] => charBetween '1' '9' a && charBetween '0' '9' b
  | [a, b, c] =>
      (a == '1' && charBetween '0' '9' b && charBetween '0' '9' c) ||
      (a == '2' && charBetween '0' '4' b && charBetween '0' '9' c) ||
      (a == '2' && b == '5' && charBetween '0' '5' c)
  | _ => false

/-- Split a character list on a separator character (Python `str.split`). -/
def splitOnChar (sep : Char) : List Char → List (List Char)
  | [] => [[]]
  | c :: t =>
    let r := splitOnChar sep t
    if c == sep then [] :: r
    else
      match r with
      | [] => [[c]]
      | h :: rest => (c :: h) :: rest

/-- Source `secure_config.is_ip_address`: the anchored regex
`^(octet\.){3}octet$` matches exactly the strings made of four dot-separated
components, each matching the octet alternation. -/
def is_ip_address (address : String) : Bool :=
  let parts := splitOnChar '.' address.toList
  parts.length == 4 && parts.all isOctet

/-- Source `secure_config.get_san_alt_names` (this source takes the bind address
only): returns the pair (IP addresses, host names) for the SAN certificate
extension.  `local_addresses` stands for `utils.get_local_addresses()`. -/
def get_san_alt_names (local_addresses : List String) (address : String) :
    List String × List String :=
  let ip0 : List String :=
    if address = "0.0.0.0" then local_addresses
    else if is_ip_address address then [address] else []
  let names0 : List String :=
    if address = "0.0.0.0" then []
    else if is_ip_address address then [] else [address]
  let names1 : List String :=
    if "127.0.0.1" ∈ ip0 ∧ "localhost" ∉ names0 then names0 ++ ["localhost"] else names0
  let ip1 : List String :=
    if "localhost" ∈ names1 ∧ "127.0.0.1" ∉ ip0 then ip0 ++ ["127.0.0.1"] else ip0
  (ip1, names1)

/-- Loopback cross-adding: the final IP set holds `127.0.0.1` exactly when
the final name set holds `localhost`. -/
theorem san_cross (loc : List String) (address : String) :
    "127.0.0.1" ∈ (get_san_alt_names loc address).1 ↔
      "localhost" ∈ (get_san_alt_names loc address).2 := by
  by_cases h0 : address = "0.0.0.0"
  · subst h0
    by_cases hl : "127.0.0.1" ∈ loc <;>
      simp [get_san_alt_names, hl]
  · by_cases hip : is_ip_address address
    · by_cases ha : address = "127.0.0.1"
      · subst ha
        simp [get_san_alt_names, h0, hip]
      · have ha' : "127.0.0.1" ≠ address := fun h => ha h.symm
        simp [get_san_alt_names, h0, hip, ha']
    · by_cases ha : address = "localhost"
      · subst ha
        simp [get_san_alt_names, h0, hip]
      · have ha' : "localhost" ≠ address := fun h => ha h.symm
        simp [get_san_alt_names, h0, hip, ha']

/-- C4: SAN derivation.  For the all-interfaces sentinel every local
interface address lands in the IP set; otherwise a four-octet IPv4 literal
gives an IP set of exactly that address, and anything else goes to the
DNS-name set; `localhost`/`127.0.0.1` are cross-added to each other's set
whenever one appears; and `get_san_alt_names` on `192.168.1.5` is
`(["192.168.1.5"], [])` with no loopback additions. -/
theorem C4_get_san_alt_names (loc : List String) (address : String) :
    (address = "0.0.0.0" → ∀ a ∈ loc, a ∈ (get_san_alt_names loc address).1) ∧
    (address ≠ "0.0.0.0" → is_ip_address address = true →
      (get_san_alt_names loc address).1 = [address]) ∧
    (address ≠ "0.0.0.0" → is_ip_address address = false →
      address ∈ (get_san_alt_names loc address).2) ∧
    ("127.0.0.1" ∈ (get_san_alt_names loc address).1 ↔
      "localhost" ∈ (get_san_alt_names loc address).2) ∧
    get_san_alt_names loc "192.168.1.5" = (["192.168.1.5"], []) := by
  refine ⟨?_, ?_, ?_, san_cross loc address, rfl⟩
  · intro h0 a ha
    subst h0
    by_cases hl : "127.0.0.1" ∈ loc <;>
      simp [get_san_alt_names, hl, ha]
  · intro h0 hip
    by_cases ha : address = "127.0.0.1"
    · subst ha
      simp [get_san_alt_names, h0, hip]
    · have ha' : "127.0.0.1" ≠ address := fun h => ha h.symm
      simp [get_san_alt_names, h0, hip, ha']
  · intro h0 hip
    by_cases ha : address = "localhost"
    · subst ha
      simp [get_san_alt_names, h0, hip]
    · simp [get_san_alt_names, h0, hip]

/-- C4 witness: the concrete non-loopback IPv4 literal from the claim. -/
theorem C4_get_san_alt_names_witness :
    (get_san_alt_names ["10.0.0.7"] "192.168.1.5").1 = ["192.168.1.5"] :=
  (C4_get_san_alt_names ["10.0.0.7"] "192.168.1.5").2.1 (by decide) (by decide)

/-! ## Token generator (utils.generate_token / generate_random_password,
secure_config.generate_token)

`secrets.choice(alphabet)` draws one element of the alphabet per iteration
from the OS cryptographic randomness source; the draws are modelled by the
oracle `choice`, one alphabet index per position. -/

/-- Source `string.ascii_letters + string.digits`, the 62-symbol alphabet. -/
def alphabet : List Char :=
  "abcdefghijklmnopqrstuvwxyzABCDEFGHIJKLMNOPQRSTUVWXYZ".toList ++
    "0123456789".toList

/-- Source `utils.DEF_TOKEN_LEN` (and `secure_config.DEF_TOKEN_LEN`). -/
def DEF_TOKEN_LEN : Nat := 20

/-- Source `utils.generate_random_password`:
`''.join(secrets.choice(alphabet) for _ in range(length))`. -/
def generate_random_password (choice : Nat → Fin alphabet.length)
    (length : Nat := DEF_TOKEN_LEN) : String :=
  String.mk ((List.range length).map fun i => alphabet.get (choice i))

/-- Source `utils.generate_token`: delegates to `generate_random_password`. -/
def generate_token (choice : Nat → Fin alphabet.length)
    (length : Nat := DEF_TOKEN_LEN) : String :=
  generate_random_password choice length

/-- Source `secure_config.generate_token`: builds the same alphabet and joins
`length` draws of `secrets.choice`. -/
def secure_generate_token (choice : Nat → Fin alphabet.length)
    (length : Nat := DEF_TOKEN_LEN) : String :=
  String.mk ((List.range length).map fun i => alphabet.get (choice i))

/-- C8: for every requested length `L ≥ 1` (and in fact for every `L`),
the generated token has exactly `L` characters, all drawn from the 62-symbol
alphanumeric alphabet; the default length is 20; and the `secure_config`
copy of the generator agrees with the `utils` one. -/
theorem C8_generate_token_length (choice : Nat → Fin alphabet.length) (L : Nat)
    (_hL : 1 ≤ L) :
    (generate_token choice L).length = L ∧
    (∀ c ∈ (generate_token choice L).toList, c ∈ alphabet) ∧
    alphabet.length = 62 ∧
    DEF_TOKEN_LEN = 20 ∧
    secure_generate_token choice L = generate_token choice L := by
  refine ⟨?_, ?_, by decide, rfl, rfl⟩
  · simp [generate_token, generate_random_password, String.length]
  · intro c hc
    simp only [generate_token, generate_random_password, String.toList] at hc
    obtain ⟨i, _, rfl⟩ := List.mem_map.mp hc
    exact List.get_mem alphabet (choice i).val (choice i).isLt

/-- C8 witness: a concrete 20-character token. -/
theorem C8_generate_token_length_witness :
    (generate_token (fun _ => (⟨0, by decide⟩ : Fin alphabet.length)) 20).length = 20 :=
  (C8_generate_token_length (fun _ => (⟨0, by decide⟩ : Fin alphabet.length)) 20
    (by decide)).1

/-! ## Run-script generator and consistency checker (config_generator.py)

A vendor launch script is a list of its lines (each line carries its
trailing newline, as Python file iteration yields them).  `write_run_script`
is a line-by-line rewrite; `make_run_script` stores the rewrite at the
config's run-script path; `check_run_script` re-runs the rewrite into an
in-memory `StringIO` and compares it with the stored script. -/

def IDEA_RUN_CLASS : String := "com.intellij.idea.Main"
def PROJECTOR_RUN_CLASS : String := "org.jetbrains.projector.server.ProjectorLauncher"
def TOKEN_ENV_NAME : String := "ORG_JETBRAINS_PROJECTOR_SERVER_HANDSHAKE_TOKEN"
def RO_TOKEN_ENV_NAME : String := "ORG_JETBRAINS_PROJECTOR_SERVER_RO_HANDSHAKE_TOKEN"
def SSL_ENV_NAME : String := "ORG_JETBRAINS_PROJECTOR_SERVER_SSL_PROPERTIES_PATH"
def CLASS_TO_LAUNCH_PROPERTY_NAME : String := "org.jetbrains.projector.server.classToLaunch"
def HOST_PROPERTY_NAME : String := "ORG_JETBRAINS_PROJECTOR_SERVER_HOST"
def PORT_PROPERTY_NAME : String := "ORG_JETBRAINS_PROJECTOR_SERVER_PORT"
def MPS_MAIN_CLASS : String := "${MAIN_CLASS}"
def IDEA_PROPERTIES_FILE : String := "idea.properties"

/-- The single-quote character (avoiding an escape in a literal). -/
def squote : Char := Char.ofNat 39

/-- Characters `shlex.quote` treats as safe: the ASCII word characters plus
`@ % + = : , .` and the slash and dash characters (its `_find_unsafe` regex
finds none of them). -/
def shlexSafe (c : Char) : Bool :=
  c.isAlphanum || c == '_' || c == '@' || c == '%' || c == '+' || c == '=' ||
    c == ':' || c == ',' || c == '.' || c == '/' || c == '-'

/-- Models `shlex.quote`: the empty string quotes to two single quotes, a
string of safe characters is returned unchanged, and anything else is
wrapped in single quotes with each embedded single quote replaced by the
five-character sequence quote, double-quote, quote, double-quote, quote. -/
def shlexQuote (s : String) : String :=
  if s = "" then String.mk [squote, squote]
  else if s.toList.all shlexSafe then s
  else
    String.mk
      ([squote] ++
        (s.toList.flatMap fun c =>
          if c == squote then [squote, '"', squote, '"', squote] else [c]) ++
        [squote])

/-- Source `config_generator.token_quote`: wraps the `shlex.quote` result in double
quotes unless it is already single-quoted (first and last characters both
single quotes). -/
def token_quote (token : String) : String :=
  let res := shlexQuote token
  if res ≠ "" then
    if res.toList.head? == some squote && res.toList.getLast? == some squote then res
    else "\"" ++ res ++ "\""
  else res

/-- Source `config_generator.launch_script_last_lines`. -/
def launch_script_last_lines (home : String) (rc : RunConfig) (main_class : String) :
    String :=
  let line := " -Djdk.attach.allowAttachSelf=true \\\n"
  let line := line ++ " -D" ++ PORT_PROPERTY_NAME ++ "=" ++
    toString rc.projector_port ++ " \\\n"
  let line := line ++ " -D" ++ CLASS_TO_LAUNCH_PROPERTY_NAME ++ "=" ++ main_class ++ " \\\n"
  let line :=
    if rc.projector_host ≠ HOST_ALL then
      line ++ " -D" ++ HOST_PROPERTY_NAME ++ "=" ++ rc.projector_host ++ " \\\n"
    else line
  let line :=
    if rc.is_secure then
      line ++ " -D" ++ SSL_ENV_NAME ++ "=\"" ++
        get_ssl_properties_file home rc.name ++ "\" \\\n"
    else line
  let line :=
    if rc.is_password_protected then
      line ++ " -D" ++ TOKEN_ENV_NAME ++ "=" ++ token_quote rc.password ++ " \\\n" ++
        " -D" ++ RO_TOKEN_ENV_NAME ++ "=" ++ token_quote rc.ro_password ++ " \\\n"
    else line
  line ++ "  " ++ PROJECTOR_RUN_CLASS ++ "\\\n"

/-- Models `line.startswith(p)`. -/
def strStartsWith (s p : String) : Bool :=
  isPre p.toList s.toList

/-- The per-line rewrite of `config_generator.write_run_script`. -/
def write_script_line (home : String) (rc : RunConfig) (line : String) : String :=
  if strStartsWith line "IDE_BIN_HOME" then
    "IDE_BIN_HOME=" ++ shlexQuote (pyJoin rc.path_to_app "bin") ++ "\n"
  else if strContains line "classpath" then
    " -classpath \"$CLASSPATH:$CLASS_PATH:" ++ get_projector_server_dir home ++ "/*\" \\\n"
  else if rc.use_separate_config && strContains line "${IDE_PROPERTIES_PROPERTY}" then
    " -Didea.properties.file=" ++
      pyJoin (get_path_to_config home rc.name) IDEA_PROPERTIES_FILE ++ " \\\n"
  else if strContains line IDEA_RUN_CLASS then
    launch_script_last_lines home rc IDEA_RUN_CLASS
  else if strContains line MPS_MAIN_CLASS then
    launch_script_last_lines home rc MPS_MAIN_CLASS
  else line

/-- Source `config_generator.write_run_script`, as the full text written to `dst`. -/
def write_run_script_content (home : String) (rc : RunConfig) (src : List String) :
    String :=
  String.join (src.map (write_script_line home rc))

/-- The on-disk state C2 is about: the stored run script of each config
(`make_run_script` overwrites it, `check_run_script` only reads it). -/
structure Disk where
  runScripts : String → String

/-- The `generate_run_script` step of `config_generator.save_config`
(line 194): rewrites the vendor launch script of the configured app
(`vendor` models `apps.get_launch_script`) and stores it at the config's
run-script path.  The `config.ini` write of `save_config` is
`save_config_ini` above; the secrets step is `generate_server_secrets`
below. -/
def save_config_fs (home : String) (vendor : String → List String) (d : Disk)
    (rc : RunConfig) : Disk :=
  { runScripts := fun n =>
      if n = rc.name then write_run_script_content home rc (vendor rc.path_to_app)
      else d.runScripts n }

/-- Source `config_generator.check_run_script`: regenerates the rewrite into an
in-memory buffer and compares byte-for-byte with the stored script.  It
returns the unchanged disk state: checking writes nothing. -/
def check_run_script (home : String) (vendor : String → List String) (d : Disk)
    (rc : RunConfig) : Bool × Disk :=
  (write_run_script_content home rc (vendor rc.path_to_app) == d.runScripts rc.name, d)

/-- Source `config_generator.check_config`: checks the run script at
`get_run_script_path(run_config.name)`. -/
def check_config (home : String) (vendor : String → List String) (d : Disk)
    (rc : RunConfig) : Bool × Disk :=
  check_run_script home vendor d rc

/-- C2: immediately after `save_config`, `check_config` returns `true` and
leaves the disk untouched, and iterating the check any number of times keeps
the state fixed and keeps returning `true`. -/
theorem C2_check_after_save (home : String) (vendor : String → List String)
    (d : Disk) (rc : RunConfig) :
    check_config home vendor (save_config_fs home vendor d rc) rc =
      (true, save_config_fs home vendor d rc) ∧
    (∀ k : Nat,
      (fun s => (check_config home vendor s rc).2)^[k] (save_config_fs home vendor d rc) =
        save_config_fs home vendor d rc) ∧
    (∀ k : Nat,
      (check_config home vendor
        ((fun s => (check_config home vendor s rc).2)^[k] (save_config_fs home vendor d rc))
        rc).1 = true) := by
  have hid : (fun s => (check_config home vendor s rc).2) = id := rfl
  have hfix : ∀ k : Nat,
      (fun s => (check_config home vendor s rc).2)^[k] (save_config_fs home vendor d rc) =
        save_config_fs home vendor d rc := by
    intro k
    rw [hid, Function.iterate_id, id_eq]
  have hchk : check_config home vendor (save_config_fs home vendor d rc) rc =
      (true, save_config_fs home vendor d rc) := by
    unfold check_config check_run_script save_config_fs
    simp
  refine ⟨hchk, hfix, fun k => ?_⟩
  rw [hfix k, hchk]

/-! ## Secret provisioning (secure_config.py)

Contents of the per-config and shared-CA secret files, as a map from path
to optional file content.  The external `keytool`/`openssl` invocations
produce file contents; they are modelled by the oracle `fresh`, one content
per written path. -/

/-- Source `join(get_run_configs_dir(), config_name, file)`, the path shape shared
by all per-config secret files in secure_config.py. -/
def config_file_path (home config_name file : String) : String :=
  pyJoin (pyJoin (get_run_configs_dir home) config_name) file

/-- Source `secure_config.get_projector_jks_file`. -/
def get_projector_jks_file (home config_name : String) : String :=
  config_file_path home config_name "projector.jks"

/-- Source `secure_config.get_projector_csr_file`. -/
def get_projector_csr_file (home config_name : String) : String :=
  config_file_path home config_name "projector.csr"

/-- Source `secure_config.get_projector_crt_file`. -/
def get_projector_crt_file (home config_name : String) : String :=
  config_file_path home config_name "projector.crt"

/-- Source `secure_config.get_http_crt_file`. -/
def get_http_crt_file (home config_name : String) : String :=
  config_file_path home config_name "http_server.crt"

/-- Source `secure_config.get_http_key_file`. -/
def get_http_key_file (home config_name : String) : String :=
  config_file_path home config_name "http_server.key"

/-- Source `secure_config.get_http_csr_file`. -/
def get_http_csr_file (home config_name : String) : String :=
  config_file_path home config_name "http_server.csr"

/-- Source `secure_config.get_openssl_req_cnf_file`. -/
def get_openssl_req_cnf_file (home config_name : String) : String :=
  config_file_path home config_name "server-san-req.cnf"

/-- Source `secure_config.get_openssl_sign_cnf_file`. -/
def get_openssl_sign_cnf_file (home config_name : String) : String :=
  config_file_path home config_name "server-san-sign.cnf"

/-- Modelled from the spec: `get_ssl_dir` is imported from `global_config`,
which does not define it in this snapshot; its unit tests pin it to
`<home>/.projector/ssl`, the shared ssl/CA directory of the spec. -/
def get_ssl_dir (home : String) : String := pyJoin (config_dir home) "ssl"

/-- Source `secure_config.get_ca_crt_file`. -/
def get_ca_crt_file (home : String) : String := pyJoin (get_ssl_dir home) "ca.crt"

/-- Source `secure_config.get_ca_key_file`. -/
def get_ca_key_file (home : String) : String := pyJoin (get_ssl_dir home) "ca.key"

/-- Source `secure_config.get_ca_jks_file`. -/
def get_ca_jks_file (home : String) : String := pyJoin (get_ssl_dir home) "ca.jks"

/-- Source `secure_config.get_ca_pkcs12_file`. -/
def get_ca_pkcs12_file (home : String) : String := pyJoin (get_ssl_dir home) "ca.p12"

/-- File store for the provisioning step: path to optional content. -/
structure SecretFs where
  files : String → Option String

/-- Models `os.path.isfile`. -/
def isfile (fs : SecretFs) (p : String) : Bool := (fs.files p).isSome

/-- Writing a file. -/
def setFile (fs : SecretFs) (p content : String) : SecretFs :=
  ⟨fun q => if q = p then some content else fs.files q⟩

/-- Source `utils.remove_file_if_exist` (removing an absent file leaves the map
unchanged anyway). -/
def removeFile (fs : SecretFs) (p : String) : SecretFs :=
  ⟨fun q => if q = p then none else fs.files q⟩

theorem setFile_same (fs : SecretFs) (p c : String) :
    (setFile fs p c).files p = some c := by
  simp [setFile]

theorem setFile_other (fs : SecretFs) (p c q : String) (h : q ≠ p) :
    (setFile fs p c).files q = fs.files q := by
  simp [setFile, h]

/-- Source `secure_config.is_ca_exist`. -/
def is_ca_exist (home : String) (fs : SecretFs) : Bool :=
  isfile fs (get_ca_jks_file home) && isfile fs (get_ca_crt_file home)

/-- Source `secure_config.are_exist_server_secrets`: all seven secure-connection
files of the config exist. -/
def are_exist_server_secrets (home : String) (fs : SecretFs) (config_name : String) :
    Bool :=
  isfile fs (get_projector_jks_file home config_name) &&
  isfile fs (get_projector_csr_file home config_name) &&
  isfile fs (get_projector_crt_file home config_name) &&
  isfile fs (get_ssl_properties_file home config_name) &&
  isfile fs (get_http_csr_file home config_name) &&
  isfile fs (get_http_crt_file home config_name) &&
  isfile fs (get_http_key_file home config_name)

/-- Source `secure_config.remove_server_secrets`. -/
def remove_server_secrets (home : String) (fs : SecretFs) (config_name : String) :
    SecretFs :=
  let fs := removeFile fs (get_projector_jks_file home config_name)
  let fs := removeFile fs (get_projector_csr_file home config_name)
  let fs := removeFile fs (get_projector_crt_file home config_name)
  let fs := removeFile fs (get_ssl_properties_file home config_name)
  let fs := removeFile fs (get_http_csr_file home config_name)
  let fs := removeFile fs (get_http_crt_file home config_name)
  removeFile fs (get_http_key_file home config_name)

/-- Source `secure_config.generate_ca`: the keytool/openssl pipeline creates the CA
keystore, exports the certificate, converts to pkcs12 and extracts the key. -/
def generate_ca (fresh : String → String) (home : String) (fs : SecretFs) : SecretFs :=
  let fs := setFile fs (get_ca_jks_file home) (fresh (get_ca_jks_file home))
  let fs := setFile fs (get_ca_crt_file home) (fresh (get_ca_crt_file home))
  let fs := setFile fs (get_ca_pkcs12_file home) (fresh (get_ca_pkcs12_file home))
  setFile fs (get_ca_key_file home) (fresh (get_ca_key_file home))

/-- Source `secure_config.generate_projector_jks`: keytool generates the keypair
(jks), the signing request (csr) and the signed certificate (crt); the two
subsequent imports update the jks in place (its final content is the
oracle's value at its path). -/
def generate_projector_jks (fresh : String → String) (home : String) (fs : SecretFs)
    (config_name : String) : SecretFs :=
  let fs := setFile fs (get_projector_jks_file home config_name)
    (fresh (get_projector_jks_file home config_name))
  let fs := setFile fs (get_projector_csr_file home config_name)
    (fresh (get_projector_csr_file home config_name))
  setFile fs (get_projector_crt_file home config_name)
    (fresh (get_projector_crt_file home config_name))

/-- Source `secure_config.generate_ssl_properties_file`: four `KEY=VALUE` lines,
with store and key password both equal to the token. -/
def generate_ssl_properties_file (home : String) (fs : SecretFs)
    (config_name token : String) : SecretFs :=
  setFile fs (get_ssl_properties_file home config_name)
    ("STORE_TYPE=JKS\n" ++
      "FILE_PATH=" ++ get_projector_jks_file home config_name ++ "\n" ++
      "STORE_PASSWORD=" ++ token ++ "\n" ++
      "KEY_PASSWORD=" ++ token ++ "\n")

/-- Source `secure_config.REQ_CNF_CONTENT`, the OpenSSL request-config template. -/
def REQ_CNF_CONTENT : String :=
  "\n[ req ]\nv3_extensions = v3_req\ndistinguished_name = req_distinguished_name\n" ++
  "prompt = no\n\n[ req_distinguished_name ]\n" ++
  "countryName                 = RU\ncountryName_default         = RU\n" ++
  "stateOrProvinceName         = SPB\nstateOrProvinceName_default = SPB\n" ++
  "localityName                = SPB\nlocalityName_default        = SPB\n" ++
  "organizationName            = Projector\norganizationName_default    = Projector\n" ++
  "commonName                  = localhost\ncommonName_default          = localhost\n" ++
  "commonName_max              = 64\n\n\n[ v3_req ]\nsubjectAltName =  @alt_names\n\n" ++
  "[ alt_names ]\n"

/-- Source `secure_config.SIGN_CNF_CONTENT`, the OpenSSL signing-config template. -/
def SIGN_CNF_CONTENT : String :=
  "\n[ v3_sign ]\nsubjectAltName = @alt_names\n\n[ alt_names ]\n"

/-- The `IP.i = addr` / `DNS.i = name` lines appended to the OpenSSL config
templates by `generate_req_cnf` / `generate_sign_cnf`. -/
def sanConfigLines (addresses names : List String) : String :=
  String.join (addresses.enum.map fun p => "IP." ++ toString (p.1 + 1) ++ " = " ++ p.2 ++ "\n") ++
  String.join (names.enum.map fun p => "DNS." ++ toString (p.1 + 1) ++ " = " ++ p.2 ++ "\n")

/-- Source `secure_config.generate_http_cert`: generates the http key, the two
OpenSSL SAN config files and the csr/crt pair.  The source reads
`run_config.http_address` (an attribute of the older `global_config`
RunConfig), passed here explicitly; `loc` models `get_local_addresses()`. -/
def generate_http_cert (fresh : String → String) (home : String) (loc : List String)
    (http_address : String) (fs : SecretFs) (config_name : String) : SecretFs :=
  let fs := setFile fs (get_http_key_file home config_name)
    (fresh (get_http_key_file home config_name))
  let san := get_san_alt_names loc http_address
  let fs := setFile fs (get_openssl_req_cnf_file home config_name)
    (REQ_CNF_CONTENT ++ sanConfigLines san.1 san.2)
  let fs := setFile fs (get_http_csr_file home config_name)
    (fresh (get_http_csr_file home config_name))
  let fs := setFile fs (get_openssl_sign_cnf_file home config_name)
    (SIGN_CNF_CONTENT ++ sanConfigLines san.1 san.2)
  setFile fs (get_http_crt_file home config_name)
    (fresh (get_http_crt_file home config_name))

/-- Source `secure_config.generate_server_secrets`: create the CA if it is missing;
then, only when not all seven secret files exist, remove whatever exists and
regenerate everything. -/
def generate_server_secrets (fresh : String → String) (home : String)
    (loc : List String) (http_address : String) (fs : SecretFs) (rc : RunConfig) :
    SecretFs :=
  let fs1 := if !(is_ca_exist home fs) then generate_ca fresh home fs else fs
  if !(are_exist_server_secrets home fs1 rc.name) then
    let fs2 := remove_server_secrets home fs1 rc.name
    let fs3 := generate_projector_jks fresh home fs2 rc.name
    let fs4 := generate_ssl_properties_file home fs3 rc.name rc.token
    generate_http_cert fresh home loc http_address fs4 rc.name
  else fs1

/-! Path disjointness: the per-config secret files live under
`<config_dir>/configs/...` while the CA files live under
`<config_dir>/ssl/...`, so creating the CA never touches a config's secret
files. -/

theorem toList_append (a b : String) : (a ++ b).toList = a.toList ++ b.toList :=
  String.data_append a b

theorem append_ne_empty_left (x y : String) (hx : x.toList ≠ []) : x ++ y ≠ "" := by
  intro h
  have hnil : (x ++ y).toList = [] := by rw [h]; rfl
  rw [toList_append] at hnil
  exact hx (List.append_eq_nil.mp hnil).1

theorem append_lit_ne_empty (x y : String) (hy : y.toList ≠ []) : x ++ y ≠ "" := by
  intro h
  have hnil : (x ++ y).toList = [] := by rw [h]; rfl
  rw [toList_append] at hnil
  exact hy (List.append_eq_nil.mp hnil).2

theorem append_lit_getLast (x y : String) (c : Char) (hy : y.toList.getLast? = some c)
    (hynil : y.toList ≠ []) : (x ++ y).toList.getLast? = some c := by
  rw [toList_append, List.getLast?_append_of_ne_nil _ hynil, hy]

theorem config_dir_getLast (home : String) :
    (config_dir home).toList.getLast? = some 'r' := by
  unfold config_dir pyJoin
  by_cases h0 : home = ""
  · rw [if_pos h0]; decide
  · rw [if_neg h0]
    by_cases h1 : home.toList.getLast? = some '/'
    · rw [if_pos h1]
      exact append_lit_getLast home ".projector" 'r' (by decide) (by decide)
    · rw [if_neg h1]
      exact append_lit_getLast (home ++ "/") ".projector" 'r' (by decide) (by decide)

theorem config_dir_ne_empty (home : String) : config_dir home ≠ "" := by
  intro h
  have hlast := config_dir_getLast home
  rw [h] at hlast
  simp at hlast

theorem config_dir_getLast_ne_slash (home : String) :
    (config_dir home).toList.getLast? ≠ some '/' := by
  rw [config_dir_getLast]
  decide

theorem get_run_configs_dir_eq (home : String) :
    get_run_configs_dir home = config_dir home ++ "/" ++ "configs" := by
  unfold get_run_configs_dir pyJoin
  rw [if_neg (config_dir_ne_empty home), if_neg (config_dir_getLast_ne_slash home)]

theorem get_ssl_dir_eq (home : String) :
    get_ssl_dir home = config_dir home ++ "/" ++ "ssl" := by
  unfold get_ssl_dir pyJoin
  rw [if_neg (config_dir_ne_empty home), if_neg (config_dir_getLast_ne_slash home)]

theorem config_file_path_shape (home name file : String) :
    ∃ r, (config_file_path home name file).toList =
      (config_dir home).toList ++ '/' :: 'c' :: r := by
  unfold config_file_path
  rw [get_run_configs_dir_eq]
  have hAne : config_dir home ++ "/" ++ "configs" ≠ "" :=
    append_lit_ne_empty (config_dir home ++ "/") "configs" (by decide)
  have hAlast : (config_dir home ++ "/" ++ "configs").toList.getLast? ≠ some '/' := by
    rw [append_lit_getLast (config_dir home ++ "/") "configs" 's' (by decide) (by decide)]
    decide
  have hinner : pyJoin (config_dir home ++ "/" ++ "configs") name =
      config_dir home ++ "/" ++ "configs" ++ "/" ++ name := by
    unfold pyJoin
    rw [if_neg hAne, if_neg hAlast]
  rw [hinner]
  have hBne : config_dir home ++ "/" ++ "configs" ++ "/" ++ name ≠ "" := by
    refine append_ne_empty_left (config_dir home ++ "/" ++ "configs" ++ "/") name ?_
    rw [toList_append]
    intro h
    exact absurd (List.append_eq_nil.mp h).2 (by decide)
  unfold pyJoin
  rw [if_neg hBne]
  have hs : "/".toList = ['/'] := rfl
  have hc : "configs".toList = 'c' :: "onfigs".toList := rfl
  by_cases hBl : (config_dir home ++ "/" ++ "configs" ++ "/" ++ name).toList.getLast? =
      some '/'
  · rw [if_pos hBl]
    refine ⟨"onfigs".toList ++ '/' :: (name.toList ++ file.toList), ?_⟩
    simp only [toList_append, hs, hc, List.append_assoc, List.cons_append,
      List.nil_append]
  · rw [if_neg hBl]
    refine ⟨"onfigs".toList ++ '/' :: (name.toList ++ '/' :: file.toList), ?_⟩
    simp only [toList_append, hs, hc, List.append_assoc, List.cons_append,
      List.nil_append]

theorem ca_file_path_shape (home file : String) :
    ∃ r, (pyJoin (get_ssl_dir home) file).toList =
      (config_dir home).toList ++ '/' :: 's' :: r := by
  rw [get_ssl_dir_eq]
  have hne : config_dir home ++ "/" ++ "ssl" ≠ "" :=
    append_lit_ne_empty (config_dir home ++ "/") "ssl" (by decide)
  have hlast : (config_dir home ++ "/" ++ "ssl").toList.getLast? ≠ some '/' := by
    rw [append_lit_getLast (config_dir home ++ "/") "ssl" 'l' (by decide) (by decide)]
    decide
  unfold pyJoin
  rw [if_neg hne, if_neg hlast]
  have hs : "/".toList = ['/'] := rfl
  have hc : "ssl".toList = 's' :: "sl".toList := rfl
  refine ⟨"sl".toList ++ '/' :: file.toList, ?_⟩
  simp only [toList_append, hs, hc, List.append_assoc, List.cons_append, List.nil_append]

theorem config_file_ne_ca (home name file file' : String) :
    config_file_path home name file ≠ pyJoin (get_ssl_dir home) file' := by
  intro h
  obtain ⟨r, hr⟩ := config_file_path_shape home name file
  obtain ⟨r', hr'⟩ := ca_file_path_shape home file'
  rw [h, hr'] at hr
  have hcc := List.append_cancel_left hr
  simp at hcc

theorem ca_join_inj (home : String) (a b : String)
    (h : pyJoin (get_ssl_dir home) a = pyJoin (get_ssl_dir home) b) : a = b := by
  rw [get_ssl_dir_eq] at h
  have hne : config_dir home ++ "/" ++ "ssl" ≠ "" :=
    append_lit_ne_empty (config_dir home ++ "/") "ssl" (by decide)
  have hlast : (config_dir home ++ "/" ++ "ssl").toList.getLast? ≠ some '/' := by
    rw [append_lit_getLast (config_dir home ++ "/") "ssl" 'l' (by decide) (by decide)]
    decide
  unfold pyJoin at h
  rw [if_neg hne, if_neg hlast, if_neg hne, if_neg hlast] at h
  have hl := congrArg String.toList h
  rw [toList_append, toList_append] at hl
  have hab := List.append_cancel_left hl
  cases a with
  | mk da =>
    cases b with
    | mk db => exact congrArg String.mk hab

theorem ca_files_ne (home : String) (a b : String) (hab : a ≠ b) :
    pyJoin (get_ssl_dir home) a ≠ pyJoin (get_ssl_dir home) b :=
  fun h => hab (ca_join_inj home a b h)

/-- Creating the CA touches only the four CA paths. -/
theorem generate_ca_preserves (fresh : String → String) (home : String) (fs : SecretFs)
    (p : String)
    (h1 : p ≠ get_ca_jks_file home) (h2 : p ≠ get_ca_crt_file home)
    (h3 : p ≠ get_ca_pkcs12_file home) (h4 : p ≠ get_ca_key_file home) :
    (generate_ca fresh home fs).files p = fs.files p := by
  unfold generate_ca
  rw [setFile_other _ _ _ _ h4, setFile_other _ _ _ _ h3,
    setFile_other _ _ _ _ h2, setFile_other _ _ _ _ h1]

/-- Creating the CA does not change which per-config secret files exist. -/
theorem are_exist_generate_ca (fresh : String → String) (home : String) (fs : SecretFs)
    (name : String) :
    are_exist_server_secrets home (generate_ca fresh home fs) name =
      are_exist_server_secrets home fs name := by
  unfold are_exist_server_secrets isfile
  rw [generate_ca_preserves fresh home fs (get_projector_jks_file home name)
        (config_file_ne_ca home name "projector.jks" "ca.jks")
        (config_file_ne_ca home name "projector.jks" "ca.crt")
        (config_file_ne_ca home name "projector.jks" "ca.p12")
        (config_file_ne_ca home name "projector.jks" "ca.key"),
      generate_ca_preserves fresh home fs (get_projector_csr_file home name)
        (config_file_ne_ca home name "projector.csr" "ca.jks")
        (config_file_ne_ca home name "projector.csr" "ca.crt")
        (config_file_ne_ca home name "projector.csr" "ca.p12")
        (config_file_ne_ca home name "projector.csr" "ca.key"),
      generate_ca_preserves fresh home fs (get_projector_crt_file home name)
        (config_file_ne_ca home name "projector.crt" "ca.jks")
        (config_file_ne_ca home name "projector.crt" "ca.crt")
        (config_file_ne_ca home name "projector.crt" "ca.p12")
        (config_file_ne_ca home name "projector.crt" "ca.key"),
      generate_ca_preserves fresh home fs (get_ssl_properties_file home name)
        (config_file_ne_ca home name "ssl.properties" "ca.jks")
        (config_file_ne_ca home name "ssl.properties" "ca.crt")
        (config_file_ne_ca home name "ssl.properties" "ca.p12")
        (config_file_ne_ca home name "ssl.properties" "ca.key"),
      generate_ca_preserves fresh home fs (get_http_csr_file home name)
        (config_file_ne_ca home name "http_server.csr" "ca.jks")
        (config_file_ne_ca home name "http_server.csr" "ca.crt")
        (config_file_ne_ca home name "http_server.csr" "ca.p12")
        (config_file_ne_ca home name "http_server.csr" "ca.key"),
      generate_ca_preserves fresh home fs (get_http_crt_file home name)
        (config_file_ne_ca home name "http_server.crt" "ca.jks")
        (config_file_ne_ca home name "http_server.crt" "ca.crt")
        (config_file_ne_ca home name "http_server.crt" "ca.p12")
        (config_file_ne_ca home name "http_server.crt" "ca.key"),
      generate_ca_preserves fresh home fs (get_http_key_file home name)
        (config_file_ne_ca home name "http_server.key" "ca.jks")
        (config_file_ne_ca home name "http_server.key" "ca.crt")
        (config_file_ne_ca home name "http_server.key" "ca.p12")
        (config_file_ne_ca home name "http_server.key" "ca.key")]

/-- After CA creation the CA keystore exists. -/
theorem generate_ca_jks_exists (fresh : String → String) (home : String) (fs : SecretFs) :
    isfile (generate_ca fresh home fs) (get_ca_jks_file home) = true := by
  have h1 : get_ca_jks_file home ≠ get_ca_key_file home :=
    ca_files_ne home "ca.jks" "ca.key" (by decide)
  have h2 : get_ca_jks_file home ≠ get_ca_pkcs12_file home :=
    ca_files_ne home "ca.jks" "ca.p12" (by decide)
  have h3 : get_ca_jks_file home ≠ get_ca_crt_file home :=
    ca_files_ne home "ca.jks" "ca.crt" (by decide)
  simp only [generate_ca, isfile]
  rw [setFile_other _ _ _ _ h1, setFile_other _ _ _ _ h2, setFile_other _ _ _ _ h3,
    setFile_same]
  rfl

/-- After CA creation the exported CA certificate exists. -/
theorem generate_ca_crt_exists (fresh : String → String) (home : String) (fs : SecretFs) :
    isfile (generate_ca fresh home fs) (get_ca_crt_file home) = true := by
  have h1 : get_ca_crt_file home ≠ get_ca_key_file home :=
    ca_files_ne home "ca.crt" "ca.key" (by decide)
  have h2 : get_ca_crt_file home ≠ get_ca_pkcs12_file home :=
    ca_files_ne home "ca.crt" "ca.p12" (by decide)
  simp only [generate_ca, isfile]
  rw [setFile_other _ _ _ _ h1, setFile_other _ _ _ _ h2, setFile_same]
  rfl

/-- C9: implicit frame property of secret provisioning.  When all seven
per-config secret files already exist, `generate_server_secrets` leaves
every file under the config's directory byte-for-byte unchanged, whatever
the config's current token is; a missing CA is still created. -/
theorem C9_generate_server_secrets_frame (fresh : String → String) (home : String)
    (loc : List String) (http_address : String) (fs : SecretFs) (rc : RunConfig)
    (hall : are_exist_server_secrets home fs rc.name = true) :
    (∀ file : String,
      (generate_server_secrets fresh home loc http_address fs rc).files
          (config_file_path home rc.name file) =
        fs.files (config_file_path home rc.name file)) ∧
    (is_ca_exist home fs = false →
      isfile (generate_server_secrets fresh home loc http_address fs rc)
          (get_ca_jks_file home) = true ∧
      isfile (generate_server_secrets fresh home loc http_address fs rc)
          (get_ca_crt_file home) = true) := by
  by_cases hca : is_ca_exist home fs
  · have hres : generate_server_secrets fresh home loc http_address fs rc = fs := by
      unfold generate_server_secrets
      simp [hca, hall]
    rw [hres]
    exact ⟨fun _ => rfl, fun hfalse => absurd hca (by simp [hfalse])⟩
  · have hca' : is_ca_exist home fs = false := by simpa using hca
    have hexist : are_exist_server_secrets home (generate_ca fresh home fs) rc.name = true := by
      rw [are_exist_generate_ca]
      exact hall
    have hres : generate_server_secrets fresh home loc http_address fs rc =
        generate_ca fresh home fs := by
      unfold generate_server_secrets
      simp [hca', hexist]
    rw [hres]
    refine ⟨fun file => ?_, fun _ => ⟨?_, ?_⟩⟩
    · exact generate_ca_preserves fresh home fs (config_file_path home rc.name file)
        (config_file_ne_ca home rc.name file "ca.jks")
        (config_file_ne_ca home rc.name file "ca.crt")
        (config_file_ne_ca home rc.name file "ca.p12")
        (config_file_ne_ca home rc.name file "ca.key")
    · exact generate_ca_jks_exists fresh home fs
    · exact generate_ca_crt_exists fresh home fs

/-- C9 witness: with every file present (including a stale keystore made
with a different token), provisioning a config whose token is `"t"` leaves
the projector keystore unchanged. -/
theorem C9_generate_server_secrets_frame_witness :
    (generate_server_secrets (fun p => p) "/h" [] "0.0.0.0"
        ⟨fun _ => some "stale"⟩
        { name := "c", path_to_app := "/a", projector_port := 1, token := "t",
          password := "", ro_password := "", toolbox := false,
          custom_names := "" }).files
      (config_file_path "/h" "c" "projector.jks") = some "stale" :=
  (C9_generate_server_secrets_frame (fun p => p) "/h" [] "0.0.0.0"
    ⟨fun _ => some "stale"⟩
    { name := "c", path_to_app := "/a", projector_port := 1, token := "t",
      password := "", ro_password := "", toolbox := false, custom_names := "" }
    (by rfl)).1 "projector.jks"

/-! ## Lock discipline of the mutating commands (actions.py)

Each command is embedded as the ordered list of lock/mutation/exit events it
performs, as a function of the externally decided branch outcomes (whether
the lock is free, whether validation succeeds, ...).  `sys.exit(1)` is the
`exit1` event: it terminates the process (so the OS drops any advisory lock
the process still holds), but it is distinct from an explicit
`release_config` call.  Dialog selection, printing (including the
"already in use" message) and network checks perform no lock or config-file
operations and produce no events. -/

/-- One lock/mutation/exit event of a command. -/
inductive Act where
  | acquire_ok
  | acquire_fail
  | release
  | exit1
  | saveCfg
  | deleteCfg
  | renameCfg
  | updateCfg
  | spawnWait
  deriving Repr, DecidableEq

/-- Source `actions.do_run_config` (lines 167-239): `regenerate_config_if_toolbox`
may re-save the config (`toolboxRegen`) before anything else; a missing run
script exits before the lock attempt; lock contention exits; otherwise the
child process is spawned and awaited and the lock is released. -/
def do_run_config (toolboxRegen scriptExists lockFree : Bool) : List Act :=
  (if toolboxRegen then [Act.saveCfg] else []) ++
  (if !scriptExists then [Act.exit1]
   else if !lockFree then [Act.acquire_fail, Act.exit1]
   else [Act.acquire_ok, Act.spawnWait, Act.release])

/-- Source `actions.do_edit_config` (lines 356-378): after acquiring the lock, a
validation failure exits via `sys.exit(1)`; only the success path calls
`save_config` and `release_config`. -/
def do_edit_config (lockFree validOk : Bool) : List Act :=
  if !lockFree then [Act.acquire_fail, Act.exit1]
  else
    Act.acquire_ok ::
      (if !validOk then [Act.exit1] else [Act.saveCfg, Act.release])

/-- Source `actions.do_remove_config` (lines 334-349): releases the lock first and
then deletes the configuration directory. -/
def do_remove_config (lockFree : Bool) : List Act :=
  if !lockFree then [Act.acquire_fail, Act.exit1]
  else [Act.acquire_ok, Act.release, Act.deleteCfg]

/-- Source `actions.do_rename_config` (lines 381-404): the name checks exit before
the lock attempt; the rename happens under the lock. -/
def do_rename_config (fromExists sameName toExists lockFree : Bool) : List Act :=
  if !fromExists then [Act.exit1]
  else if sameName then [Act.exit1]
  else if toExists then [Act.exit1]
  else if !lockFree then [Act.acquire_fail, Act.exit1]
  else [Act.acquire_ok, Act.renameCfg, Act.release]

/-- Source `actions.do_rebuild_config` (lines 407-419). -/
def do_rebuild_config (lockFree : Bool) : List Act :=
  if !lockFree then [Act.acquire_fail, Act.exit1]
  else [Act.acquire_ok, Act.saveCfg, Act.release]

/-- Source `actions.do_update_config` (lines 422-454): a non-updatable IDE or a
missing update returns without touching the lock. -/
def do_update_config (updatable hasUpdate lockFree : Bool) : List Act :=
  if !updatable then []
  else if !hasUpdate then []
  else if !lockFree then [Act.acquire_fail, Act.exit1]
  else [Act.acquire_ok, Act.updateCfg, Act.release]

/-- Source `actions.do_install_cert` (lines 457-494): after acquiring the lock, a
missing certificate or key file exits via `sys.exit(1)`; the success path
saves and releases.  (`certGiven` is whether `path_to_certificate` was
passed.) -/
def do_install_cert (lockFree certGiven certFileOk keyFileOk : Bool) : List Act :=
  if !lockFree then [Act.acquire_fail, Act.exit1]
  else
    Act.acquire_ok ::
      (if certGiven && !certFileOk then [Act.exit1]
       else if certGiven && !keyFileOk then [Act.exit1]
       else [Act.saveCfg, Act.release])

/-- Configuration-mutating events. -/
def isMut : Act → Bool
  | Act.saveCfg => true
  | Act.deleteCfg => true
  | Act.renameCfg => true
  | Act.updateCfg => true
  | _ => false

/-- Fail-fast on contention: if the lock acquisition fails, the command
performs no mutation from that point on and ends in a process exit. -/
def failFast (t : List Act) : Bool :=
  !(t.contains Act.acquire_fail) ||
    ((t.dropWhile (fun a => a != Act.acquire_fail)).all (fun a => !(isMut a)) &&
      t.getLast? == some Act.exit1)

/-- Once the lock is acquired, every exit path either explicitly releases it
or terminates the process. -/
def releaseOrExit (t : List Act) : Bool :=
  !(t.contains Act.acquire_ok) || t.contains Act.release ||
    t.getLast? == some Act.exit1

/-- A mutation occurring before the lock is acquired. -/
def mutBeforeAcquire (t : List Act) : Bool :=
  (t.takeWhile (fun a => a != Act.acquire_ok)).any isMut

/-- C6 counterexample: on the validation-failure exit of the edit command
the lock has been acquired and the command terminates without any
`release_config` call, contradicting "releases the lock on every exit path,
including ... the validation-failure exit of the edit command". -/
theorem C6_lock_discipline_counterexample :
    (do_edit_config true false).contains Act.acquire_ok = true ∧
    (do_edit_config true false).contains Act.release = false := by
  decide

theorem run_lock_ok : ∀ tb se lf : Bool,
    failFast (do_run_config tb se lf) = true ∧
    releaseOrExit (do_run_config tb se lf) = true ∧
    mutBeforeAcquire (do_run_config tb se lf) = tb := by
  intro tb se lf
  cases tb <;> cases se <;> cases lf <;> decide

theorem edit_lock_ok : ∀ lf vo : Bool,
    failFast (do_edit_config lf vo) = true ∧
    releaseOrExit (do_edit_config lf vo) = true ∧
    mutBeforeAcquire (do_edit_config lf vo) = false := by
  intro lf vo
  cases lf <;> cases vo <;> decide

theorem remove_lock_ok : ∀ lf : Bool,
    failFast (do_remove_config lf) = true ∧
    releaseOrExit (do_remove_config lf) = true ∧
    mutBeforeAcquire (do_remove_config lf) = false := by
  intro lf
  cases lf <;> decide

theorem rename_lock_ok : ∀ fe sn te lf : Bool,
    failFast (do_rename_config fe sn te lf) = true ∧
    releaseOrExit (do_rename_config fe sn te lf) = true ∧
    mutBeforeAcquire (do_rename_config fe sn te lf) = false := by
  intro fe sn te lf
  cases fe <;> cases sn <;> cases te <;> cases lf <;> decide

theorem rebuild_lock_ok : ∀ lf : Bool,
    failFast (do_rebuild_config lf) = true ∧
    releaseOrExit (do_rebuild_config lf) = true ∧
    mutBeforeAcquire (do_rebuild_config lf) = false := by
  intro lf
  cases lf <;> decide

theorem update_lock_ok : ∀ up hu lf : Bool,
    failFast (do_update_config up hu lf) = true ∧
    releaseOrExit (do_update_config up hu lf) = true ∧
    mutBeforeAcquire (do_update_config up hu lf) = false := by
  intro up hu lf
  cases up <;> cases hu <;> cases lf <;> decide

theorem install_cert_lock_ok : ∀ lf cg cf ko : Bool,
    failFast (do_install_cert lf cg cf ko) = true ∧
    releaseOrExit (do_install_cert lf cg cf ko) = true ∧
    mutBeforeAcquire (do_install_cert lf cg cf ko) = false := by
  intro lf cg cf ko
  cases lf <;> cases cg <;> cases cf <;> cases ko <;> decide

/-- C6 (amended): every one of the seven commands fails fast on lock
contention (no mutation after a failed acquisition, ending in process exit),
and after a successful acquisition every exit path either explicitly
releases the lock or terminates the process (edit's validation-failure and
install-certificate's missing-file paths do the latter).  No command mutates
before the acquisition attempt, with two deviations: the run command's
toolbox regeneration re-saves the config before locking exactly when it
fires, and the remove command releases the lock just before deleting the
directory. -/
theorem C6_lock_discipline_amended :
    (∀ tb se lf : Bool,
      failFast (do_run_config tb se lf) = true ∧
      releaseOrExit (do_run_config tb se lf) = true ∧
      mutBeforeAcquire (do_run_config tb se lf) = tb) ∧
    (∀ lf vo : Bool,
      failFast (do_edit_config lf vo) = true ∧
      releaseOrExit (do_edit_config lf vo) = true ∧
      mutBeforeAcquire (do_edit_config lf vo) = false) ∧
    (∀ lf : Bool,
      failFast (do_remove_config lf) = true ∧
      releaseOrExit (do_remove_config lf) = true ∧
      mutBeforeAcquire (do_remove_config lf) = false) ∧
    do_remove_config true = [Act.acquire_ok, Act.release, Act.deleteCfg] ∧
    (∀ fe sn te lf : Bool,
      failFast (do_rename_config fe sn te lf) = true ∧
      releaseOrExit (do_rename_config fe sn te lf) = true ∧
      mutBeforeAcquire (do_rename_config fe sn te lf) = false) ∧
    (∀ lf : Bool,
      failFast (do_rebuild_config lf) = true ∧
      releaseOrExit (do_rebuild_config lf) = true ∧
      mutBeforeAcquire (do_rebuild_config lf) = false) ∧
    (∀ up hu lf : Bool,
      failFast (do_update_config up hu lf) = true ∧
      releaseOrExit (do_update_config up hu lf) = true ∧
      mutBeforeAcquire (do_update_config up hu lf) = false) ∧
    (∀ lf cg cf ko : Bool,
      failFast (do_install_cert lf cg cf ko) = true ∧
      releaseOrExit (do_install_cert lf cg cf ko) = true ∧
      mutBeforeAcquire (do_install_cert lf cg cf ko) = false) :=
  ⟨run_lock_ok, edit_lock_ok, remove_lock_ok, by decide, rename_lock_ok,
    rebuild_lock_ok, update_lock_ok, install_cert_lock_ok⟩

end ProjectorInstaller
